import Mathlib

/-!
Verification of the bootstrap/configuration core of
`golang-rest-api-template` (Go). The configuration service
(`config/config.go`) and the entrypoint (`cmd/server/main.go`) are
embedded shallowly: the process environment is an association list,
`strconv.Atoi` is modelled with Go's syntax/range semantics, and the
optional `.env` file load (`godotenv.Load`, error discarded) is an
explicit `Except` argument.  The application lifecycle controller
(`internal/application`) is not part of the provided sources; where a
claim depends on it, the definition is modelled from the spec and says so
in its doc comment.
-/

namespace GoRestApi

/-- The process environment: an association list of variable names to
values.  Earlier entries shadow later ones, matching a map where lookup
returns the first binding. -/
abbrev Env := List (String × String)

/-- Embeds `os.LookupEnv`: the value of `key` if the variable is present
(even when its value is the empty string), `none` otherwise. -/
def lookupEnv (env : Env) (key : String) : Option String :=
  env.lookup key

/-- Embeds `getEnv` (config.go lines 98-103): the environment value when
the variable is present, else the default. -/
def getEnv (env : Env) (key defaultValue : String) : String :=
  match lookupEnv env key with
  | some value => value
  | none => defaultValue

/-- One parsed digit run: `some` of its value when the character list is
nonempty and all decimal digits, else `none`. -/
def digitsVal? (cs : List Char) : Option Nat :=
  if cs = [] then none
  else if cs.all Char.isDigit then
    some (cs.foldl (fun a c => 10 * a + (c.toNat - 48)) 0)
  else none

/-- Syntactic part of Go's `strconv.ParseInt(s, 10, 0)`: an optional
leading sign followed by at least one decimal digit yields the signed
(unbounded) value; anything else is a syntax error (`none`). -/
def goAtoiParse (s : String) : Option Int :=
  match s.data with
  | '+' :: rest => (digitsVal? rest).map Int.ofNat
  | '-' :: rest => (digitsVal? rest).map (fun n => -(n : Int))
  | cs => (digitsVal? cs).map Int.ofNat

def int64Max : Int := 2 ^ 63 - 1

def int64Min : Int := -(2 ^ 63)

/-- Embeds the value component of `strconv.Atoi` on a 64-bit platform:
syntax errors yield 0 (with an error the caller may discard), values out
of the `int64` range are clamped to the nearest bound (Go's `ErrRange`
behaviour). -/
def goAtoi (s : String) : Int :=
  match goAtoiParse s with
  | none => 0
  | some n => if n > int64Max then int64Max else if n < int64Min then int64Min else n

structure DBConfig where
  Host : String
  Port : String
  User : String
  Password : String
  Name : String
deriving DecidableEq, Repr

structure RedisConfig where
  Host : String
  Port : String
  Password : String
  DB : Int
deriving DecidableEq, Repr

structure ServerConf where
  Address : String
  Port : String
deriving DecidableEq, Repr

structure JaegerConfig where
  AgentHost : String
  AgentPort : String
deriving DecidableEq, Repr

/-- Embeds `config.Service`: the application configuration holder. -/
structure Service where
  Name : String
  dbEnv : DBConfig
  redisEnv : RedisConfig
  srvConfg : ServerConf
  jaegerConfig : JaegerConfig
deriving DecidableEq, Repr

/-- Embeds `config.NewService`; the groups carry Go zero values
(empty strings, 0) until `LoadConfig` runs. -/
def NewService : Service :=
  { Name := "go-rest-api-template"
    dbEnv := ⟨"", "", "", "", ""⟩
    redisEnv := ⟨"", "", "", 0⟩
    srvConfg := ⟨"", ""⟩
    jaegerConfig := ⟨"", ""⟩ }

/-- Embeds the effect of `godotenv.Load()` on the process environment: on
any failure (missing file, malformed file, unreadable file) the
environment is unchanged; on success the file's pairs are added without
overriding variables already present (godotenv `Load` does not override). -/
def dotenvMerge (env : Env) (envFile : Except String Env) : Env :=
  match envFile with
  | .error _ => env
  | .ok pairs => env ++ pairs

/-- Embeds `Service.LoadConfig` (config.go lines 61-95).  The process
environment and the outcome of reading the optional `.env` file are
explicit arguments; the returned `Option String` is the Go error value
(`none` = nil). -/
def Service.LoadConfig (cnf : Service) (procEnv : Env)
    (envFile : Except String Env) : Service × Option String :=
  let env := dotenvMerge procEnv envFile
  let dbEnv : DBConfig :=
    { Port := getEnv env "DB_PORT" "3306"
      Host := getEnv env "DB_HOST" "localhost"
      User := getEnv env "DB_USER" "user"
      Password := getEnv env "DB_PASSWORD" "password"
      Name := getEnv env "DB_NAME" "mydatabase" }
  let redisDB := goAtoi (getEnv env "REDIS_DB" "0")
  let redisEnv : RedisConfig :=
    { Host := getEnv env "REDIS_HOST" "localhost"
      Port := getEnv env "REDIS_PORT" "6379"
      Password := getEnv env "REDIS_PASSWORD" ""
      DB := redisDB }
  let srvConfg : ServerConf :=
    { Address := getEnv env "SERVER_ADDR" ""
      Port := getEnv env "SERVER_PORT" "8080" }
  let jaegerConfig : JaegerConfig :=
    { AgentHost := getEnv env "JAEGER_AGENT_HOST" "localhost"
      AgentPort := getEnv env "JAEGER_AGENT_PORT" "6831" }
  ({ cnf with dbEnv := dbEnv, redisEnv := redisEnv,
              srvConfg := srvConfg, jaegerConfig := jaegerConfig }, none)

/-- Embeds `Service.Init`, which just delegates to `LoadConfig`. -/
def Service.Init (cnf : Service) (procEnv : Env)
    (envFile : Except String Env) : Service × Option String :=
  cnf.LoadConfig procEnv envFile

/-- Embeds `Service.GetDBConfig`. -/
def Service.GetDBConfig (cnf : Service) : DBConfig := cnf.dbEnv

/-- Embeds `Service.GetRedisConfig`. -/
def Service.GetRedisConfig (cnf : Service) : RedisConfig := cnf.redisEnv

/-- Embeds `Service.GetServerConfig`. -/
def Service.GetServerConfig (cnf : Service) : ServerConf := cnf.srvConfg

/-- Embeds `Service.GetJaegerConfig`. -/
def Service.GetJaegerConfig (cnf : Service) : JaegerConfig := cnf.jaegerConfig

/-- Modelled from the spec: the lifecycle state tag of §3, for the
`internal/application` controller that is not among the provided
sources. -/
inductive AppState where
  | uninitialized
  | initialized
  | running
  | shuttingDown
  | stopped
deriving DecidableEq, Repr

/-- One structured log line: level, message, and key/value detail. -/
structure LogEntry where
  level : String
  msg : String
  fields : List (String × String)
deriving DecidableEq, Repr

/-- Modelled from the spec: the Application Lifecycle Controller of §4.2
(`internal/application`, not among the provided sources).  It owns the
lifecycle state, whether configuration has been loaded, and how many
subsystems it has started. -/
structure Application where
  state : AppState
  configLoaded : Bool
  subsystemsStarted : Nat
deriving DecidableEq, Repr

/-- Modelled from the spec: `application.NewApplication` constructs the
controller in the Uninitialized state, before any configuration read. -/
def NewApplication : Application :=
  { state := .uninitialized, configLoaded := false, subsystemsStarted := 0 }

/-- Modelled from the spec: `Application.Initialize` (§4.2) constructs
the logger, invokes `LoadConfig`, and wires subsystems; it fails fast
with an error when a mandatory subsystem cannot be constructed, and
calling it outside the Uninitialized state returns a descriptive error.
`constructionFailure` abstracts whether some mandatory subsystem fails to
construct. -/
def Application.Initialize (app : Application)
    (constructionFailure : Option String) : Application × Option String :=
  if app.state = AppState.uninitialized then
    match constructionFailure with
    | some e => (app, some e)
    | none => ({ app with state := .initialized, configLoaded := true }, none)
  else
    (app, some "application already initialized")

/-- Modelled from the spec: `Application.Run` (§4.2) starts the serving
subsystem, blocks until a termination signal or a fatal runtime error,
then shuts down gracefully and returns (nil on clean shutdown, the error
otherwise); invoked in any state other than Initialized it returns an
error and performs no side effects.  `runtimeFailure` abstracts which of
the two unblocking conditions occurred. -/
def Application.Run (app : Application)
    (runtimeFailure : Option String) : Application × Option String :=
  if app.state = AppState.initialized then
    let served := { app with state := AppState.stopped,
                             subsystemsStarted := app.subsystemsStarted + 1 }
    match runtimeFailure with
    | some e => (served, some e)
    | none => (served, none)
  else
    (app, some "application not initialized")

/-- The three `fmt.Printf` lines of main.go's version branch
(lines 44-46), one string per printed line. -/
def versionLines (version commit date : String) : List String :=
  ["golang-rest-api-template " ++ version,
   "  commit: " ++ commit,
   "  built:  " ++ date]

/-- Embeds main.go's version-flag test (line 42):
`len(os.Args) > 1 && (os.Args[1] == "--version" || os.Args[1] == "-v")`. -/
def isVersionArg (args : List String) : Bool :=
  decide (args.length > 1) &&
    (args.get? 1 == some "--version" || args.get? 1 == some "-v")

/-- Observable outcome of one run of `main`: what was printed to stdout,
the structured log lines, the process exit code, whether
Initialize/Run were invoked, and whether configuration was loaded. -/
structure MainTrace where
  stdout : List String
  logs : List LogEntry
  exitCode : Nat
  initCalled : Bool
  runCalled : Bool
  configLoaded : Bool
deriving DecidableEq, Repr

/-- Embeds `main` (cmd/server/main.go lines 41-68), driving the modelled
Application.  `logger.Fatal` is modelled from the spec as "log a
structured line at fatal level, then exit with a non-zero status"
(main.go's logger package is not among the provided sources); the exit
status used is 1. -/
def runMain (args : List String) (version commit date : String)
    (constructionFailure runtimeFailure : Option String) : MainTrace :=
  if isVersionArg args then
    { stdout := versionLines version commit date, logs := [], exitCode := 0,
      initCalled := false, runCalled := false, configLoaded := false }
  else
    let initRes := NewApplication.Initialize constructionFailure
    match initRes.2 with
    | some err =>
        { stdout := [], exitCode := 1,
          logs := [⟨"fatal", "failed to initialize application", [("error", err)]⟩],
          initCalled := true, runCalled := false,
          configLoaded := initRes.1.configLoaded }
    | none =>
        let app1 := initRes.1
        let startLog : LogEntry :=
          ⟨"info", "starting application",
            [("version", version), ("commit", commit), ("built", date)]⟩
        let runRes := app1.Run runtimeFailure
        match runRes.2 with
        | some err =>
            { stdout := [], exitCode := 1,
              logs := [startLog, ⟨"fatal", "application failed", [("error", err)]⟩],
              initCalled := true, runCalled := true,
              configLoaded := app1.configLoaded }
        | none =>
            { stdout := [], exitCode := 0, logs := [startLog],
              initCalled := true, runCalled := true,
              configLoaded := app1.configLoaded }

/-! ## Helper lemmas shared by the claim theorems -/

theorem getEnv_of_unset (env : Env) (key d : String)
    (h : lookupEnv env key = none) : getEnv env key d = d := by
  simp [getEnv, h]

theorem getEnv_of_set (env : Env) (key d v : String)
    (h : lookupEnv env key = some v) : getEnv env key d = v := by
  simp [getEnv, h]

theorem goAtoi_of_parse (s : String) (n : Int) (h : goAtoiParse s = some n)
    (hlo : int64Min ≤ n) (hhi : n ≤ int64Max) : goAtoi s = n := by
  have hstep : goAtoi s =
      (if n > int64Max then int64Max else if n < int64Min then int64Min else n) := by
    unfold goAtoi
    rw [h]
  rw [hstep, if_neg (not_lt.mpr hhi), if_neg (not_lt.mpr hlo)]

theorem goAtoi_of_bad (s : String) (h : goAtoiParse s = none) : goAtoi s = 0 := by
  unfold goAtoi
  rw [h]

theorem getEnv_default_or_env (env : Env) (key d : String) :
    getEnv env key d = d ∨ lookupEnv env key = some (getEnv env key d) := by
  rcases hc : lookupEnv env key with _ | v
  · exact Or.inl (getEnv_of_unset _ _ _ hc)
  · right
    rw [getEnv_of_set _ _ _ _ hc]

/-- `LoadConfig` written out field by field: every group is rebuilt from
`getEnv` over the dotenv-merged environment, and the returned error is
always `none`. -/
theorem Service.loadConfig_unfold (cnf : Service) (procEnv : Env)
    (envFile : Except String Env) :
    cnf.LoadConfig procEnv envFile =
      ({ Name := cnf.Name
         dbEnv :=
           { Port := getEnv (dotenvMerge procEnv envFile) "DB_PORT" "3306"
             Host := getEnv (dotenvMerge procEnv envFile) "DB_HOST" "localhost"
             User := getEnv (dotenvMerge procEnv envFile) "DB_USER" "user"
             Password := getEnv (dotenvMerge procEnv envFile) "DB_PASSWORD" "password"
             Name := getEnv (dotenvMerge procEnv envFile) "DB_NAME" "mydatabase" }
         redisEnv :=
           { Host := getEnv (dotenvMerge procEnv envFile) "REDIS_HOST" "localhost"
             Port := getEnv (dotenvMerge procEnv envFile) "REDIS_PORT" "6379"
             Password := getEnv (dotenvMerge procEnv envFile) "REDIS_PASSWORD" ""
             DB := goAtoi (getEnv (dotenvMerge procEnv envFile) "REDIS_DB" "0") }
         srvConfg :=
           { Address := getEnv (dotenvMerge procEnv envFile) "SERVER_ADDR" ""
             Port := getEnv (dotenvMerge procEnv envFile) "SERVER_PORT" "8080" }
         jaegerConfig :=
           { AgentHost := getEnv (dotenvMerge procEnv envFile) "JAEGER_AGENT_HOST" "localhost"
             AgentPort := getEnv (dotenvMerge procEnv envFile) "JAEGER_AGENT_PORT" "6831" } },
       none) := rfl

/-! ## Claim theorems -/

/-- C1: For every recognized environment variable, if it is unset in the
process environment at resolution time (after the optional dotenv merge),
`LoadConfig` resolves the corresponding field to the documented default;
if it is set, the resolved field equals that value exactly (string
identity for string fields, integer parse equality for `REDIS_DB` on any
value that parses within the `int64` range). -/
theorem loadConfig_env_resolution (cnf : Service) (procEnv : Env)
    (envFile : Except String Env)
    (e : Env) (he : e = dotenvMerge procEnv envFile)
    (s : Service) (hs : s = (cnf.LoadConfig procEnv envFile).1) :
    (lookupEnv e "DB_HOST" = none → s.dbEnv.Host = "localhost") ∧
    (∀ v, lookupEnv e "DB_HOST" = some v → s.dbEnv.Host = v) ∧
    (lookupEnv e "DB_PORT" = none → s.dbEnv.Port = "3306") ∧
    (∀ v, lookupEnv e "DB_PORT" = some v → s.dbEnv.Port = v) ∧
    (lookupEnv e "DB_USER" = none → s.dbEnv.User = "user") ∧
    (∀ v, lookupEnv e "DB_USER" = some v → s.dbEnv.User = v) ∧
    (lookupEnv e "DB_PASSWORD" = none → s.dbEnv.Password = "password") ∧
    (∀ v, lookupEnv e "DB_PASSWORD" = some v → s.dbEnv.Password = v) ∧
    (lookupEnv e "DB_NAME" = none → s.dbEnv.Name = "mydatabase") ∧
    (∀ v, lookupEnv e "DB_NAME" = some v → s.dbEnv.Name = v) ∧
    (lookupEnv e "REDIS_HOST" = none → s.redisEnv.Host = "localhost") ∧
    (∀ v, lookupEnv e "REDIS_HOST" = some v → s.redisEnv.Host = v) ∧
    (lookupEnv e "REDIS_PORT" = none → s.redisEnv.Port = "6379") ∧
    (∀ v, lookupEnv e "REDIS_PORT" = some v → s.redisEnv.Port = v) ∧
    (lookupEnv e "REDIS_PASSWORD" = none → s.redisEnv.Password = "") ∧
    (∀ v, lookupEnv e "REDIS_PASSWORD" = some v → s.redisEnv.Password = v) ∧
    (lookupEnv e "REDIS_DB" = none → s.redisEnv.DB = 0) ∧
    (∀ v n, lookupEnv e "REDIS_DB" = some v → goAtoiParse v = some n →
      int64Min ≤ n → n ≤ int64Max → s.redisEnv.DB = n) ∧
    (lookupEnv e "SERVER_ADDR" = none → s.srvConfg.Address = "") ∧
    (∀ v, lookupEnv e "SERVER_ADDR" = some v → s.srvConfg.Address = v) ∧
    (lookupEnv e "SERVER_PORT" = none → s.srvConfg.Port = "8080") ∧
    (∀ v, lookupEnv e "SERVER_PORT" = some v → s.srvConfg.Port = v) ∧
    (lookupEnv e "JAEGER_AGENT_HOST" = none → s.jaegerConfig.AgentHost = "localhost") ∧
    (∀ v, lookupEnv e "JAEGER_AGENT_HOST" = some v → s.jaegerConfig.AgentHost = v) ∧
    (lookupEnv e "JAEGER_AGENT_PORT" = none → s.jaegerConfig.AgentPort = "6831") ∧
    (∀ v, lookupEnv e "JAEGER_AGENT_PORT" = some v → s.jaegerConfig.AgentPort = v) := by
  subst he
  subst hs
  simp only [Service.loadConfig_unfold]
  refine ⟨fun h => getEnv_of_unset _ _ _ h, fun v h => getEnv_of_set _ _ _ _ h,
          fun h => getEnv_of_unset _ _ _ h, fun v h => getEnv_of_set _ _ _ _ h,
          fun h => getEnv_of_unset _ _ _ h, fun v h => getEnv_of_set _ _ _ _ h,
          fun h => getEnv_of_unset _ _ _ h, fun v h => getEnv_of_set _ _ _ _ h,
          fun h => getEnv_of_unset _ _ _ h, fun v h => getEnv_of_set _ _ _ _ h,
          fun h => getEnv_of_unset _ _ _ h, fun v h => getEnv_of_set _ _ _ _ h,
          fun h => getEnv_of_unset _ _ _ h, fun v h => getEnv_of_set _ _ _ _ h,
          fun h => getEnv_of_unset _ _ _ h, fun v h => getEnv_of_set _ _ _ _ h,
          ?_, ?_,
          fun h => getEnv_of_unset _ _ _ h, fun v h => getEnv_of_set _ _ _ _ h,
          fun h => getEnv_of_unset _ _ _ h, fun v h => getEnv_of_set _ _ _ _ h,
          fun h => getEnv_of_unset _ _ _ h, fun v h => getEnv_of_set _ _ _ _ h,
          fun h => getEnv_of_unset _ _ _ h, fun v h => getEnv_of_set _ _ _ _ h⟩
  · intro h
    rw [getEnv_of_unset _ _ _ h]
    decide
  · intro v n hv hp hlo hhi
    rw [getEnv_of_set _ _ _ _ hv]
    exact goAtoi_of_parse v n hp hlo hhi

/-- Witness for C1: with the environment holding `DB_HOST=dbhost` and
`REDIS_DB=5` and no readable `.env` file, the set variables resolve to
their values, and the unset `DB_PORT` resolves to its default. -/
theorem loadConfig_env_resolution_witness :
    (NewService.LoadConfig [("DB_HOST", "dbhost"), ("REDIS_DB", "5")]
        (Except.error "open .env: no such file or directory")).1.dbEnv.Host = "dbhost" ∧
    (NewService.LoadConfig [("DB_HOST", "dbhost"), ("REDIS_DB", "5")]
        (Except.error "open .env: no such file or directory")).1.dbEnv.Port = "3306" ∧
    (NewService.LoadConfig [("DB_HOST", "dbhost"), ("REDIS_DB", "5")]
        (Except.error "open .env: no such file or directory")).1.redisEnv.DB = 5 := by
  obtain ⟨c1, c2, c3, c4, c5, c6, c7, c8, c9, c10, c11, c12, c13, c14, c15, c16, c17,
          c18, c19, c20, c21, c22, c23, c24, c25, c26⟩ :=
    loadConfig_env_resolution NewService [("DB_HOST", "dbhost"), ("REDIS_DB", "5")]
      (Except.error "open .env: no such file or directory") _ rfl _ rfl
  exact ⟨c2 "dbhost" (by decide), c3 (by decide),
         c18 "5" 5 (by decide) (by decide) (by decide) (by decide)⟩

/-- C3: If `REDIS_DB` is set to a string that is not a syntactically
valid integer, `LoadConfig` resolves `RedisConfig.DB` to 0 and still
returns no error: the malformed value is recovered locally and never
propagated. -/
theorem redis_db_non_numeric_falls_back (cnf : Service) (procEnv : Env)
    (envFile : Except String Env) (v : String)
    (hset : lookupEnv (dotenvMerge procEnv envFile) "REDIS_DB" = some v)
    (hbad : goAtoiParse v = none) :
    (cnf.LoadConfig procEnv envFile).1.redisEnv.DB = 0 ∧
    (cnf.LoadConfig procEnv envFile).2 = none := by
  constructor
  · simp only [Service.loadConfig_unfold]
    rw [getEnv_of_set _ _ _ _ hset]
    exact goAtoi_of_bad v hbad
  · rfl

/-- Witness for C3: `REDIS_DB=abc` (the spec's end-to-end scenario value)
resolves to 0 with a nil error. -/
theorem redis_db_non_numeric_falls_back_witness :
    (NewService.LoadConfig [("REDIS_DB", "abc")] (Except.error "no file")).1.redisEnv.DB = 0 ∧
    (NewService.LoadConfig [("REDIS_DB", "abc")] (Except.error "no file")).2 = none :=
  redis_db_non_numeric_falls_back NewService [("REDIS_DB", "abc")]
    (Except.error "no file") "abc" (by decide) (by decide)

/-- C4: `LoadConfig` is total and never fails: for every environment and
every outcome of the optional `.env` read it returns a nil error, and
every field of every group ends up holding either the hardcoded default
or an environment-supplied value — there is no partial-failure state. -/
theorem loadConfig_total (cnf : Service) (procEnv : Env)
    (envFile : Except String Env)
    (e : Env) (he : e = dotenvMerge procEnv envFile)
    (s : Service) (hs : s = (cnf.LoadConfig procEnv envFile).1) :
    (cnf.LoadConfig procEnv envFile).2 = none ∧
    (s.dbEnv.Host = "localhost" ∨ lookupEnv e "DB_HOST" = some s.dbEnv.Host) ∧
    (s.dbEnv.Port = "3306" ∨ lookupEnv e "DB_PORT" = some s.dbEnv.Port) ∧
    (s.dbEnv.User = "user" ∨ lookupEnv e "DB_USER" = some s.dbEnv.User) ∧
    (s.dbEnv.Password = "password" ∨ lookupEnv e "DB_PASSWORD" = some s.dbEnv.Password) ∧
    (s.dbEnv.Name = "mydatabase" ∨ lookupEnv e "DB_NAME" = some s.dbEnv.Name) ∧
    (s.redisEnv.Host = "localhost" ∨ lookupEnv e "REDIS_HOST" = some s.redisEnv.Host) ∧
    (s.redisEnv.Port = "6379" ∨ lookupEnv e "REDIS_PORT" = some s.redisEnv.Port) ∧
    (s.redisEnv.Password = "" ∨ lookupEnv e "REDIS_PASSWORD" = some s.redisEnv.Password) ∧
    (s.redisEnv.DB = 0 ∨
      ∃ v, lookupEnv e "REDIS_DB" = some v ∧ s.redisEnv.DB = goAtoi v) ∧
    (s.srvConfg.Address = "" ∨ lookupEnv e "SERVER_ADDR" = some s.srvConfg.Address) ∧
    (s.srvConfg.Port = "8080" ∨ lookupEnv e "SERVER_PORT" = some s.srvConfg.Port) ∧
    (s.jaegerConfig.AgentHost = "localhost" ∨
      lookupEnv e "JAEGER_AGENT_HOST" = some s.jaegerConfig.AgentHost) ∧
    (s.jaegerConfig.AgentPort = "6831" ∨
      lookupEnv e "JAEGER_AGENT_PORT" = some s.jaegerConfig.AgentPort) := by
  subst he
  subst hs
  simp only [Service.loadConfig_unfold]
  refine ⟨trivial, getEnv_default_or_env _ _ _, getEnv_default_or_env _ _ _,
          getEnv_default_or_env _ _ _, getEnv_default_or_env _ _ _,
          getEnv_default_or_env _ _ _, getEnv_default_or_env _ _ _,
          getEnv_default_or_env _ _ _, getEnv_default_or_env _ _ _, ?_,
          getEnv_default_or_env _ _ _, getEnv_default_or_env _ _ _,
          getEnv_default_or_env _ _ _, getEnv_default_or_env _ _ _⟩
  rcases hc : lookupEnv (dotenvMerge procEnv envFile) "REDIS_DB" with _ | v
  · left
    rw [getEnv_of_unset _ _ _ hc]
    decide
  · right
    exact ⟨v, rfl, by rw [getEnv_of_set _ _ _ _ hc]⟩

/-- Witness for C4: with an empty environment and a missing `.env`,
`LoadConfig` returns a nil error. -/
theorem loadConfig_total_witness :
    (NewService.LoadConfig [] (Except.error "no file")).2 = none :=
  (loadConfig_total NewService [] (Except.error "no file") _ rfl _ rfl).1

/-- C5: `LoadConfig` is idempotent: loading twice from the same
environment and `.env` outcome leaves the service exactly as after the
first load. -/
theorem loadConfig_idempotent (cnf : Service) (procEnv : Env)
    (envFile : Except String Env) :
    ((cnf.LoadConfig procEnv envFile).1.LoadConfig procEnv envFile).1 =
      (cnf.LoadConfig procEnv envFile).1 := rfl

/-- C6: After `LoadConfig`, each accessor returns exactly the fully
resolved group that the load populated — never a partial group (the
accessors are total Lean functions, so they cannot panic). -/
theorem accessors_return_loaded_groups (cnf : Service) (procEnv : Env)
    (envFile : Except String Env) :
    (cnf.LoadConfig procEnv envFile).1.GetDBConfig =
      { Port := getEnv (dotenvMerge procEnv envFile) "DB_PORT" "3306"
        Host := getEnv (dotenvMerge procEnv envFile) "DB_HOST" "localhost"
        User := getEnv (dotenvMerge procEnv envFile) "DB_USER" "user"
        Password := getEnv (dotenvMerge procEnv envFile) "DB_PASSWORD" "password"
        Name := getEnv (dotenvMerge procEnv envFile) "DB_NAME" "mydatabase" } ∧
    (cnf.LoadConfig procEnv envFile).1.GetRedisConfig =
      { Host := getEnv (dotenvMerge procEnv envFile) "REDIS_HOST" "localhost"
        Port := getEnv (dotenvMerge procEnv envFile) "REDIS_PORT" "6379"
        Password := getEnv (dotenvMerge procEnv envFile) "REDIS_PASSWORD" ""
        DB := goAtoi (getEnv (dotenvMerge procEnv envFile) "REDIS_DB" "0") } ∧
    (cnf.LoadConfig procEnv envFile).1.GetServerConfig =
      { Address := getEnv (dotenvMerge procEnv envFile) "SERVER_ADDR" ""
        Port := getEnv (dotenvMerge procEnv envFile) "SERVER_PORT" "8080" } ∧
    (cnf.LoadConfig procEnv envFile).1.GetJaegerConfig =
      { AgentHost := getEnv (dotenvMerge procEnv envFile) "JAEGER_AGENT_HOST" "localhost"
        AgentPort := getEnv (dotenvMerge procEnv envFile) "JAEGER_AGENT_PORT" "6831" } :=
  ⟨rfl, rfl, rfl, rfl⟩

/-- C9: Resolution is decided by the variable's presence (`LookupEnv`),
not by its value being non-empty: every recognized string variable set to
the empty string resolves its field to the empty string, not to the
default; `REDIS_DB` set to the empty string resolves (via `Atoi` on the
empty string, a syntax error) to 0. -/
theorem resolution_by_presence (cnf : Service) (procEnv : Env)
    (envFile : Except String Env)
    (e : Env) (he : e = dotenvMerge procEnv envFile)
    (s : Service) (hs : s = (cnf.LoadConfig procEnv envFile).1) :
    (lookupEnv e "DB_HOST" = some "" → s.dbEnv.Host = "") ∧
    (lookupEnv e "DB_PORT" = some "" → s.dbEnv.Port = "") ∧
    (lookupEnv e "DB_USER" = some "" → s.dbEnv.User = "") ∧
    (lookupEnv e "DB_PASSWORD" = some "" → s.dbEnv.Password = "") ∧
    (lookupEnv e "DB_NAME" = some "" → s.dbEnv.Name = "") ∧
    (lookupEnv e "REDIS_HOST" = some "" → s.redisEnv.Host = "") ∧
    (lookupEnv e "REDIS_PORT" = some "" → s.redisEnv.Port = "") ∧
    (lookupEnv e "REDIS_PASSWORD" = some "" → s.redisEnv.Password = "") ∧
    (lookupEnv e "REDIS_DB" = some "" → s.redisEnv.DB = 0) ∧
    (lookupEnv e "SERVER_ADDR" = some "" → s.srvConfg.Address = "") ∧
    (lookupEnv e "SERVER_PORT" = some "" → s.srvConfg.Port = "") ∧
    (lookupEnv e "JAEGER_AGENT_HOST" = some "" → s.jaegerConfig.AgentHost = "") ∧
    (lookupEnv e "JAEGER_AGENT_PORT" = some "" → s.jaegerConfig.AgentPort = "") := by
  subst he
  subst hs
  simp only [Service.loadConfig_unfold]
  refine ⟨fun h => getEnv_of_set _ _ _ _ h, fun h => getEnv_of_set _ _ _ _ h,
          fun h => getEnv_of_set _ _ _ _ h, fun h => getEnv_of_set _ _ _ _ h,
          fun h => getEnv_of_set _ _ _ _ h, fun h => getEnv_of_set _ _ _ _ h,
          fun h => getEnv_of_set _ _ _ _ h, fun h => getEnv_of_set _ _ _ _ h,
          ?_,
          fun h => getEnv_of_set _ _ _ _ h, fun h => getEnv_of_set _ _ _ _ h,
          fun h => getEnv_of_set _ _ _ _ h, fun h => getEnv_of_set _ _ _ _ h⟩
  intro h
  rw [getEnv_of_set _ _ _ _ h]
  decide

/-- Witness for C9: `DB_HOST` present but empty resolves `Host` to the
empty string rather than the default `localhost`. -/
theorem resolution_by_presence_witness :
    (NewService.LoadConfig [("DB_HOST", "")] (Except.error "no file")).1.dbEnv.Host = "" :=
  (resolution_by_presence NewService [("DB_HOST", "")] (Except.error "no file")
    _ rfl _ rfl).1 (by decide)

/-- C10: Every error from reading the optional environment file — absence,
a malformed file, an unreadable file — is discarded: `LoadConfig` still
returns a nil error and resolves exactly as it would with no file
contributions, i.e. from the process environment and the defaults. -/
theorem dotenv_errors_discarded (cnf : Service) (procEnv : Env) (msg : String) :
    (cnf.LoadConfig procEnv (Except.error msg)).2 = none ∧
    (cnf.LoadConfig procEnv (Except.error msg)).1 =
      (cnf.LoadConfig procEnv (Except.ok [])).1 := by
  constructor
  · rfl
  · simp [Service.LoadConfig, dotenvMerge]

/-- C2: With `--version` or `-v` as the first argument, `main` prints
exactly the three identification lines, exits with status 0, and never
invokes Initialize or Run (hence no configuration read occurs); any other
invocation proceeds to the full bootstrap. -/
theorem main_version_flag (args : List String) (version commit date : String)
    (constructionFailure runtimeFailure : Option String) :
    (isVersionArg args = true →
      runMain args version commit date constructionFailure runtimeFailure =
        { stdout := versionLines version commit date, logs := [], exitCode := 0,
          initCalled := false, runCalled := false, configLoaded := false }) ∧
    (isVersionArg args = false →
      (runMain args version commit date constructionFailure runtimeFailure).initCalled
        = true) := by
  constructor
  · intro h
    simp [runMain, h]
  · intro h
    rcases constructionFailure with _ | e1 <;> rcases runtimeFailure with _ | e2 <;>
      simp [runMain, h, NewApplication, Application.Initialize, Application.Run]

/-- Witness for C2: `--version` yields exactly the three lines and the
clean silent exit; a flagless invocation reaches Initialize. -/
theorem main_version_flag_witness :
    runMain ["app", "--version"] "dev" "none" "unknown" none none =
      { stdout := ["golang-rest-api-template dev", "  commit: none", "  built:  unknown"],
        logs := [], exitCode := 0,
        initCalled := false, runCalled := false, configLoaded := false } ∧
    (runMain ["app"] "dev" "none" "unknown" none none).initCalled = true := by
  constructor
  · exact ((main_version_flag ["app", "--version"] "dev" "none" "unknown"
      none none).1 (by decide)).trans (by decide)
  · exact (main_version_flag ["app"] "dev" "none" "unknown" none none).2 (by decide)

/-- C7: When Initialize fails, the entrypoint emits exactly one
structured fatal log line naming the failure and its error detail and
exits with status 1, without ever calling Run; and the exit status is 0
only on a version query or a run with no initialization and no runtime
failure (clean shutdown). -/
theorem init_failure_is_fatal :
    (∀ (args : List String) (version commit date err : String)
        (runtimeFailure : Option String),
      isVersionArg args = false →
        (runMain args version commit date (some err) runtimeFailure).logs =
          [⟨"fatal", "failed to initialize application", [("error", err)]⟩] ∧
        (runMain args version commit date (some err) runtimeFailure).exitCode = 1 ∧
        (runMain args version commit date (some err) runtimeFailure).runCalled = false) ∧
    (∀ (args : List String) (version commit date : String)
        (constructionFailure runtimeFailure : Option String),
      (runMain args version commit date constructionFailure runtimeFailure).exitCode = 0 →
        isVersionArg args = true ∨
          (constructionFailure = none ∧ runtimeFailure = none)) := by
  constructor
  · intro args version commit date err runtimeFailure h
    refine ⟨?_, ?_, ?_⟩ <;>
      simp [runMain, h, NewApplication, Application.Initialize]
  · intro args version commit date constructionFailure runtimeFailure h
    cases hv : isVersionArg args with
    | true => exact Or.inl rfl
    | false =>
        right
        rcases constructionFailure with _ | e1
        · rcases runtimeFailure with _ | e2
          · exact ⟨rfl, rfl⟩
          · exfalso
            simp [runMain, hv, NewApplication, Application.Initialize,
              Application.Run] at h
        · exfalso
          simp [runMain, hv, NewApplication, Application.Initialize] at h

/-- Witness for C7: a flagless run whose Initialize fails with "boom"
logs one fatal line, exits 1, and never calls Run; and a clean flagless
run exiting 0 implies both failure inputs were absent. -/
theorem init_failure_is_fatal_witness :
    ((runMain ["app"] "dev" "none" "unknown" (some "boom") none).logs =
       [⟨"fatal", "failed to initialize application", [("error", "boom")]⟩] ∧
     (runMain ["app"] "dev" "none" "unknown" (some "boom") none).exitCode = 1 ∧
     (runMain ["app"] "dev" "none" "unknown" (some "boom") none).runCalled = false) ∧
    ((none : Option String) = none ∧ (none : Option String) = none) := by
  constructor
  · exact init_failure_is_fatal.1 ["app"] "dev" "none" "unknown" "boom" none (by decide)
  · have h := init_failure_is_fatal.2 ["app"] "dev" "none" "unknown" none none (by decide)
    rcases h with hv | hclean
    · exact absurd hv (by decide)
    · exact hclean

/-- C8: Run invoked on a controller in any state other than Initialized
returns an error and performs no side effects: the controller is returned
unchanged (no subsystem started, state untouched). -/
theorem run_before_initialize (app : Application) (runtimeFailure : Option String)
    (h : app.state ≠ AppState.initialized) :
    (app.Run runtimeFailure).1 = app ∧
    (app.Run runtimeFailure).2 = some "application not initialized" := by
  unfold Application.Run
  rw [if_neg h]
  exact ⟨rfl, rfl⟩

/-- Witness for C8: a freshly constructed (Uninitialized) application
rejects Run and is unchanged by it. -/
theorem run_before_initialize_witness :
    (NewApplication.Run none).1 = NewApplication ∧
    (NewApplication.Run none).2 = some "application not initialized" :=
  run_before_initialize NewApplication none (by decide)

end GoRestApi
